import Mathlib

/-!
Verification of the `importar` repository: a shallow embedding of the
rendezvous state machine and inverted-iteration controller
(`src/patronsdatasrc/invertediteration.py`), the record/operation data model
and the import pipeline driver (`src/importar/__init__.py`).

Python exceptions are modelled by the inductive `PyErr`; raising is modelled
by returning an `Except`/`Option` error alongside the updated state.
-/

set_option autoImplicit false

/-- Message tags for Python `ValueError`s raised by the pipeline. -/
inductive VMsg
  | not_import_record
  | bad_import_type
  | not_our_operation
deriving DecidableEq, Repr

/-- Message tags for the `RuntimeError`s raised by `IterationState`
("__next__ called before next val was provided",
"register_* called in unexpected state"). -/
inductive SMsg
  | next_before_val
  | unexpected_state
deriving DecidableEq, Repr

/-- Message tags for `InvertedIterationError`. -/
inductive IIMsg
  | second_value_without_yielding
  | did_not_advance
  | unexpected_stop_iteration
  | failed_iterator
deriving DecidableEq, Repr

/-- Message tags for `ImportOperationError` raised by the driver and the
generator handler adapter. -/
inductive IOEMsg
  | started_receiver_raised
  | record_generator_raised
  | handler_raised_on_record
  | handler_raised_on_finished
  | handler_got_on_import_failed
deriving DecidableEq, Repr

/-- Python exceptions, as relevant to this code base.  `user n` stands for an
arbitrary application exception (e.g. a `ValueError('boom')` raised by a test
consumer); `attributeError` is the `AttributeError` from reading an attribute
that has not been assigned yet; `importOpError m cause` is
`raise ImportOperationError(m) from cause`, `importOpErrorNoCause m` is a
plain `raise ImportOperationError(m)`. -/
inductive PyErr
  | user (n : Nat)
  | stopIteration
  | attributeError
  | valueError (m : VMsg)
  | runtimeError (m : SMsg)
  | invertedIteration (m : IIMsg)
  | importOpError (m : IOEMsg) (cause : PyErr)
  | importOpErrorNoCause (m : IOEMsg)
deriving DecidableEq, Repr

/-- Whether an exception is an `InvertedIterationError`
(the `except InvertedIterationError:` test in `_step`). -/
def PyErr.is_inverted : PyErr → Bool
  | .invertedIteration _ => true
  | _ => false

/-!
## Rendezvous state (`IterationState`, invertediteration.py)

The Python object holds a `State` enum plus a `val` slot; we fuse the two into
one inductive (the slot is only populated in `HAS_VAL`/`AT_ERR`).
-/

/-- The state of `IterationState`: the `State` enum together with the
held value or error. -/
inductive IterationState (V : Type)
  | AWAITING_VAL
  | HAS_VAL (v : V)
  | AT_ERR (e : PyErr)
  | AT_END
deriving DecidableEq

/-- `IterationState.__next__`: returns the updated state and either the taken
value (`.ok`) or the exception raised (`.error`); `StopIteration` signals
end-of-sequence. -/
def IterationState.next {V : Type} :
    IterationState V → IterationState V × Except PyErr V
  | .AWAITING_VAL => (.AWAITING_VAL, .error (.runtimeError .next_before_val))
  | .HAS_VAL v => (.AWAITING_VAL, .ok v)
  | .AT_ERR e => (.AT_END, .error e)
  | .AT_END => (.AT_END, .error .stopIteration)

/-- `IterationState.register_next_val`: `some e` is the raised exception;
the state is unchanged when the call raises. -/
def IterationState.register_next_val {V : Type} (st : IterationState V)
    (v : V) : IterationState V × Option PyErr :=
  match st with
  | .AWAITING_VAL => (.HAS_VAL v, none)
  | s => (s, some (.runtimeError .unexpected_state))

/-- `IterationState.register_error`. -/
def IterationState.register_error {V : Type} (st : IterationState V)
    (e : PyErr) : IterationState V × Option PyErr :=
  match st with
  | .AWAITING_VAL => (.AT_ERR e, none)
  | s => (s, some (.runtimeError .unexpected_state))

/-- `IterationState.register_end`. -/
def IterationState.register_end {V : Type} (st : IterationState V) :
    IterationState V × Option PyErr :=
  match st with
  | .AWAITING_VAL => (.AT_END, none)
  | s => (s, some (.runtimeError .unexpected_state))

/-- `IterationState.is_at_end` property. -/
def IterationState.is_at_end {V : Type} : IterationState V → Bool
  | .AT_END => true
  | _ => false

/-!
## Inverted iteration controller (invertediteration.py)

The consumer generator is embedded as a small-step machine: a state type `S`
together with `consumer_code : S → CAct V S` giving, for each suspension
state, the next action the consumer performs when resumed.  There are no
silent steps: each state is exactly one of "yield", "return", "raise own
exception" or "pull `next(feeder)` and continue from the state computed from
the pull's outcome".  A `pullA` continuation receiving `.err e` models the
exception `e` propagating from `next(feeder)` into the consumer: mapping it
to a state whose action is `raiseA e` is "not catching" it, anything else is
an `except:` handler.

The feeder generator's mutable closure (`yield_count`, the shared
`iteration_state`) together with its aliveness is `FeederCore`.  Once a
Python generator's frame is exited by an exception (or by running to its
end), further `next()` calls raise `StopIteration`; `feeder_alive` tracks
this for the feeder.
-/

/-- Mutable state shared between the controller and its `_feeder()`
generator. -/
structure FeederCore (V : Type) where
  istate : IterationState V
  step_count : Nat
  yield_count : Nat
  feeder_alive : Bool
deriving DecidableEq

/-- `_validate_in_sync`: `some e` means the check raised
`InvertedIterationError` `e`. -/
def validate_in_sync {V : Type} (c : FeederCore V) : Option PyErr :=
  if c.yield_count > c.step_count then
    some (.invertedIteration .second_value_without_yielding)
  else if c.yield_count < c.step_count then
    some (.invertedIteration .did_not_advance)
  else
    none

/-- Outcome, seen from the consumer, of one `next(feeder)` call:
the feeder yielded a value, the feeder finished (`StopIteration`, ending a
`for` loop over it), or an exception propagated out of the feeder. -/
inductive FeederRes (V : Type)
  | val (v : V)
  | stop
  | err (e : PyErr)

/-- One `next(feeder)` call: one turn of the `while True:` loop in
`_feeder()` (increment `yield_count`, `_validate_in_sync()`, then
`yield next(self.iteration_state)`).  A raised exception exits the feeder's
frame for good; the `StopIteration` from an exhausted `iteration_state` ends
the feeder generator itself. -/
def feeder_pull {V : Type} (c : FeederCore V) : FeederCore V × FeederRes V :=
  if c.feeder_alive = false then (c, .stop)
  else
    let c1 : FeederCore V := { c with yield_count := c.yield_count + 1 }
    match validate_in_sync c1 with
    | some e => ({ c1 with feeder_alive := false }, .err e)
    | none =>
      match c1.istate.next with
      | (st, .ok v) => ({ c1 with istate := st }, .val v)
      | (st, .error e) =>
        if e = .stopIteration then
          ({ c1 with istate := st, feeder_alive := false }, .stop)
        else
          ({ c1 with istate := st, feeder_alive := false }, .err e)

/-- One action of the consumer machine at a suspension/start state. -/
inductive CAct (V S : Type)
  | yieldA (s : S)
  | retA
  | raiseA (e : PyErr)
  | pullA (k : FeederRes V → S)

/-- Whether the consumer generator can still be resumed (`live s` resumes the
machine at `s`) or has finished/raised (`next()` then raises
`StopIteration`). -/
inductive ConsStatus (S : Type)
  | live (s : S)
  | exhausted

/-- Result of one `next(self.consumer)` resume. -/
inductive RunOut (S : Type)
  | yielded (s : S)
  | returned
  | raised (e : PyErr)
  | hung

/-- Run the consumer machine from state `s` until it yields, returns or
raises, interpreting each `pullA` against the feeder.  `fuel` bounds the
number of machine actions; `.hung` marks fuel exhaustion (a diverging resume,
which in Python would simply never return). -/
def run_consumer {V S : Type} (code : S → CAct V S) :
    Nat → S → FeederCore V → FeederCore V × RunOut S
  | 0, _, core => (core, .hung)
  | fuel + 1, s, core =>
    match code s with
    | .yieldA s' => (core, .yielded s')
    | .retA => (core, .returned)
    | .raiseA e => (core, .raised e)
    | .pullA k =>
      let (core', r) := feeder_pull core
      run_consumer code fuel (k r) core'

/-- `InvertedIterationController` (the draft in
`src/patronsdatasrc/invertediteration.py`): feeder core plus the bound
consumer generator (its code and its resume status). -/
structure InvertedIterationController (V S : Type) where
  core : FeederCore V
  consumer_code : S → CAct V S
  consumer : ConsStatus S

/-- Result of a driving call (`transmit_value`/`fail`/`end`): returned
normally, raised an exception, or never returned (fuel ran out). -/
inductive ExecRes
  | ok
  | raised (e : PyErr)
  | hung
deriving DecidableEq, Repr

/-- The `except StopIteration:` branch of `_step`. -/
def handle_stop_iteration {V S : Type} (c : InvertedIterationController V S) :
    InvertedIterationController V S × ExecRes :=
  if c.core.istate.is_at_end = false then
    (c, .raised (.invertedIteration .unexpected_stop_iteration))
  else
    match validate_in_sync c.core with
    | some e => (c, .raised e)
    | none => (c, .ok)

/-- `InvertedIterationController._step`: increment `step_count`, resume the
consumer once, then dispatch on how the resume ended, mirroring the
`try/except` ladder of the source (`InvertedIterationError` is re-raised
as-is; `StopIteration` is checked against `is_at_end`; any other exception
re-validates the counters and then propagates). -/
def ctrl_step {V S : Type} (fuel : Nat) (c : InvertedIterationController V S) :
    InvertedIterationController V S × ExecRes :=
  let core1 : FeederCore V := { c.core with step_count := c.core.step_count + 1 }
  match c.consumer with
  | .exhausted => handle_stop_iteration { c with core := core1 }
  | .live s =>
    match run_consumer c.consumer_code fuel s core1 with
    | (core2, .yielded s') =>
      let c' := { c with core := core2, consumer := .live s' }
      match validate_in_sync core2 with
      | some e => (c', .raised e)
      | none => (c', .ok)
    | (core2, .returned) =>
      handle_stop_iteration { c with core := core2, consumer := .exhausted }
    | (core2, .raised e) =>
      let c' := { c with core := core2, consumer := .exhausted }
      if e.is_inverted then (c', .raised e)
      else
        match validate_in_sync core2 with
        | some e2 => (c', .raised e2)
        | none => (c', .raised e)
    | (core2, .hung) => ({ c with core := core2 }, .hung)

/-- `InvertedIterationController.transmit_value`. -/
def InvertedIterationController.transmit_value {V S : Type} (fuel : Nat)
    (c : InvertedIterationController V S) (v : V) :
    InvertedIterationController V S × ExecRes :=
  match c.core.istate.register_next_val v with
  | (_, some e) => (c, .raised e)
  | (st, none) => ctrl_step fuel { c with core := { c.core with istate := st } }

/-- `InvertedIterationController.fail`. -/
def InvertedIterationController.fail {V S : Type} (fuel : Nat)
    (c : InvertedIterationController V S) (err : PyErr) :
    InvertedIterationController V S × ExecRes :=
  match c.core.istate.register_error err with
  | (_, some e) => (c, .raised e)
  | (st, none) => ctrl_step fuel { c with core := { c.core with istate := st } }

/-- `InvertedIterationController.end`. -/
def InvertedIterationController.end_loop {V S : Type} (fuel : Nat)
    (c : InvertedIterationController V S) :
    InvertedIterationController V S × ExecRes :=
  match c.core.istate.register_end with
  | (_, some e) => (c, .raised e)
  | (st, none) => ctrl_step fuel { c with core := { c.core with istate := st } }

/-- `InvertedIterationController.is_active`. -/
def InvertedIterationController.is_active {V S : Type}
    (c : InvertedIterationController V S) : Bool :=
  !c.core.istate.is_at_end

/-- The binder argument of the controller constructor.  A generator-function
binder (`genB`) returns a consumer coroutine without touching the feeder; an
eager binder (`eagerB`) starts pulling the feeder during the constructor call
itself, and `k` is what it does with its first pull's outcome: either raise
(`.error e`, e.g. by not catching the exception propagating from the feeder)
or go on to return a consumer starting at some state (`.ok s`). -/
inductive Binder (V S : Type)
  | genB (s : S)
  | eagerB (k : FeederRes V → Except PyErr S)

/-- `InvertedIterationController.__init__` of the draft, in the source's
statement order: `self.iteration_state = IterationState()`, then
`self.consumer = bind_consumer(self._feeder())`, and only afterwards
`self.step_count = 0` and `self.yield_count = 0`.  A generator-function
binder performs no pull at bind time.  An eager binder's first `next(feeder)`
runs the feeder body's `self.yield_count += 1` while that attribute has not
been assigned yet, so the pull raises `AttributeError` into the binder and
finalizes the feeder generator; if the binder does not catch it, the
constructor itself raises the `AttributeError` (`.error`), otherwise
construction completes with the counters then set to zero and the feeder
already closed. -/
def mk_controller {V S : Type} (code : S → CAct V S) :
    Binder V S → Except PyErr (InvertedIterationController V S)
  | .genB s0 => .ok ⟨⟨.AWAITING_VAL, 0, 0, true⟩, code, .live s0⟩
  | .eagerB k =>
    match k (.err .attributeError) with
    | .error e => .error e
    | .ok s0 => .ok ⟨⟨.AWAITING_VAL, 0, 0, false⟩, code, .live s0⟩

/-!
## Dead-consumer aware controller

The repository's tests (`tests/test_invertediteration_controller.py`) import
`importar.invertediteration`, a module that is not present under `src/` (the
package `src/importar/` only contains `__init__.py`, which imports it); only
the earlier draft `src/patronsdatasrc/invertediteration.py` is available, and
it lacks the `is_dead` behaviour those tests exercise.  `ControllerD` below
therefore models the missing module's controller from the specification.
-/

/-- Modelled from the spec: the controller of the missing
`importar/invertediteration.py` module.  Per spec section 4.2 it is the draft
controller plus a dead flag: "`is_dead`: true once the consumer coroutine
itself has raised an uncaught error while being driven; subsequent calls to
`transmit_value`/`fail`/`end` on a dead controller fail with ProtocolError
('communicate with a failed iterator') rather than re-invoking it", and "if
driving a step causes the consumer to raise an exception ... that exception
propagates to the caller of `transmit_value`/`fail`/`end`, and the controller
becomes dead". -/
structure ControllerD (V S : Type) where
  ctrl : InvertedIterationController V S
  dead : Bool

/-- Modelled from the spec: `_step` of the missing module.  As the draft's
`ctrl_step`, except that an exception raised by the consumer itself marks the
controller dead and propagates unchanged (spec 4.2 failure semantics). -/
def ctrl_step_d {V S : Type} (fuel : Nat) (c : ControllerD V S) :
    ControllerD V S × ExecRes :=
  let core1 : FeederCore V :=
    { c.ctrl.core with step_count := c.ctrl.core.step_count + 1 }
  match c.ctrl.consumer with
  | .exhausted =>
    let (c', r) := handle_stop_iteration { c.ctrl with core := core1 }
    ({ c with ctrl := c' }, r)
  | .live s =>
    match run_consumer c.ctrl.consumer_code fuel s core1 with
    | (core2, .yielded s') =>
      let c' : ControllerD V S :=
        { c with ctrl := { c.ctrl with core := core2, consumer := .live s' } }
      match validate_in_sync core2 with
      | some e => (c', .raised e)
      | none => (c', .ok)
    | (core2, .returned) =>
      let (c', r) := handle_stop_iteration
        { c.ctrl with core := core2, consumer := .exhausted }
      ({ c with ctrl := c' }, r)
    | (core2, .raised e) =>
      ({ ctrl := { c.ctrl with core := core2, consumer := .exhausted },
         dead := true }, .raised e)
    | (core2, .hung) => ({ c with ctrl := { c.ctrl with core := core2 } }, .hung)

/-- Modelled from the spec: `transmit_value` of the missing module's
controller; on a dead controller it fails with the
"Attempted to communicate with a failed iterator." ProtocolError instead of
touching the consumer. -/
def ControllerD.transmit_value {V S : Type} (fuel : Nat) (c : ControllerD V S)
    (v : V) : ControllerD V S × ExecRes :=
  if c.dead then (c, .raised (.invertedIteration .failed_iterator))
  else
    match c.ctrl.core.istate.register_next_val v with
    | (_, some e) => (c, .raised e)
    | (st, none) =>
      ctrl_step_d fuel
        { c with ctrl := { c.ctrl with core := { c.ctrl.core with istate := st } } }

/-- Modelled from the spec: `fail` of the missing module's controller. -/
def ControllerD.fail {V S : Type} (fuel : Nat) (c : ControllerD V S)
    (err : PyErr) : ControllerD V S × ExecRes :=
  if c.dead then (c, .raised (.invertedIteration .failed_iterator))
  else
    match c.ctrl.core.istate.register_error err with
    | (_, some e) => (c, .raised e)
    | (st, none) =>
      ctrl_step_d fuel
        { c with ctrl := { c.ctrl with core := { c.ctrl.core with istate := st } } }

/-- Modelled from the spec: `end` of the missing module's controller. -/
def ControllerD.end_loop {V S : Type} (fuel : Nat) (c : ControllerD V S) :
    ControllerD V S × ExecRes :=
  if c.dead then (c, .raised (.invertedIteration .failed_iterator))
  else
    match c.ctrl.core.istate.register_end with
    | (_, some e) => (c, .raised e)
    | (st, none) =>
      ctrl_step_d fuel
        { c with ctrl := { c.ctrl with core := { c.ctrl.core with istate := st } } }

/-- Modelled from the spec: `is_dead`. -/
def ControllerD.is_dead {V S : Type} (c : ControllerD V S) : Bool :=
  c.dead

/-- Modelled from the spec: `is_active` ("true until `end()`/`fail()` has
been delivered and processed, or the consumer has died"). -/
def ControllerD.is_active {V S : Type} (c : ControllerD V S) : Bool :=
  !c.dead && !c.ctrl.core.istate.is_at_end

/-!
## Generator-style handler adapter (`GeneratorImportOperationHandler`)

Operations are identified by a tag (`Nat`); the one-off base class's
`_validate_operation_is_ours` raises `ValueError` for a foreign operation.
The adapter owns one dead-aware controller (it is constructed on the
`importar` controller module).
-/

/-- `GeneratorImportOperationHandler`: its bound operation, the
`error_raised` flag, and its controller. -/
structure GeneratorImportOperationHandler (V S : Type) where
  operation : Nat
  error_raised : Bool
  controller : ControllerD V S

/-- `GeneratorImportOperationHandler.on_import_failed`: validate the
operation (one-off base class), then either no-op when a previous callback
already raised (`error_raised`), or `controller.fail(ImportOperationError(
'handler got on_import_failed()'))`. -/
def GeneratorImportOperationHandler.on_import_failed {V S : Type}
    (fuel : Nat) (g : GeneratorImportOperationHandler V S) (op : Nat) :
    GeneratorImportOperationHandler V S × ExecRes :=
  if op ≠ g.operation then (g, .raised (.valueError .not_our_operation))
  else if g.error_raised then (g, .ok)
  else
    let (c', r) := g.controller.fail fuel
      (.importOpErrorNoCause .handler_got_on_import_failed)
    ({ g with controller := c' }, r)

/-!
## Record and operation model (`importar/__init__.py`)
-/

/-- `ID`: a `(type, value)` named tuple. -/
abbrev ID (T U : Type) : Type := T × U

/-- `ImportType` enum. -/
inductive ImportType
  | FULL_SYNC
  | PARTIAL_UPDATE
deriving DecidableEq, Repr

/-- `ImportRecord`: a frozen set of ids plus optional data.  The source's
`__new__` check that every id is an `ID` instance holds by typing here. -/
structure ImportRecord (I D : Type) [DecidableEq I] where
  ids : Finset I
  data : Option D

/-- `ImportRecord.__new__`: `ids = frozenset(ids)`. -/
def ImportRecord.make {I D : Type} [DecidableEq I] (ids : List I)
    (data : Option D) : ImportRecord I D :=
  ⟨ids.toFinset, data⟩

/-- `ImportRecord.is_deleted`: `self.data is None`. -/
def ImportRecord.is_deleted {I D : Type} [DecidableEq I]
    (r : ImportRecord I D) : Bool :=
  r.data.isNone

/-- `ImportOperation.attach_handler`: validate (by typing here) and append
unless already attached. -/
def attach_handler {H : Type} [DecidableEq H] (l : List H) (h : H) : List H :=
  if h ∈ l then l else l ++ [h]

/-- `ImportOperation.detach_handler`: `list.remove` of the first occurrence,
swallowing the `ValueError` when absent. -/
def detach_handler {H : Type} [DecidableEq H] (l : List H) (h : H) : List H :=
  l.erase h

/-- `ImportOperation`: record type, import type and the ordered handler list.
Handlers are identified by a tag (`Nat`); their behaviour lives in a separate
environment (see `HandlerB`). -/
structure ImportOperation (P : Type) where
  record_type : P
  import_type : ImportType
  handlers : List Nat
deriving DecidableEq, Repr

/-!
## Import pipeline driver (`perform_import`)

Handlers are identified by `Nat` tags mapped to behaviours by an environment
`B : Nat → HandlerB`; a behaviour says, for each callback, whether the call
raises (and what).  `on_record` may depend on how many records the handler
has been offered so far (the record's index), which models stateful
handlers.  The driver produces the list of handler-callback invocation
events next to its Python return/raise result.
-/

/-- The observable behaviour of one handler: for each callback, `some e`
means that invocation raises `e`. -/
structure HandlerB where
  on_record : Nat → Option PyErr
  on_failed : Option PyErr
  on_finished : Option PyErr

/-- One pull on the record source: a yielded record, a yielded non-record
value, or an exception from the generator. -/
inductive PullO (R : Type)
  | record (r : R)
  | notRec
  | raiseE (e : PyErr)

/-- A handler-callback invocation event (handler tag, and for
`on_record_available` the record delivered). -/
inductive Ev (R : Type)
  | on_record_available (h : Nat) (r : R)
  | on_import_failed (h : Nat)
  | on_import_finished (h : Nat)
deriving DecidableEq, Repr

/-- The handler list that results from every `import_started` receiver
attaching its handlers (in receiver order) via `attach_handler`.  Each
receiver is `(handlers it attaches, the exception it raises if any)`;
`send_robust` runs them all. -/
def attached_handlers (receivers : List (List Nat × Option PyErr)) :
    List Nat :=
  receivers.foldl (fun acc r => r.1.foldl attach_handler acc) []

/-- The `for h in operation.handlers: h.on_record_available(operation,
record)` loop: fail-fast, returns the invocation events and the first raised
exception if any. -/
def deliver_record {R : Type} (B : Nat → HandlerB) (i : Nat) (r : R) :
    List Nat → List (Ev R) × Option PyErr
  | [] => ([], none)
  | h :: t =>
    match (B h).on_record i with
    | some e => ([.on_record_available h r], some e)
    | none =>
      let (evs, res) := deliver_record B i r t
      (.on_record_available h r :: evs, res)

/-- The errors collected by `_notify_handler_robust(operation,
'on_import_finished')`. -/
def finished_errors (B : Nat → HandlerB) (hs : List Nat) : List PyErr :=
  hs.filterMap (fun h => (B h).on_finished)

/-- The record loop of `perform_import` plus its final
`on_import_finished` round: walks the source, delivering each record to every
handler, with the fault paths notifying `on_import_failed` on every handler
(`_notify_import_failed` is fault-tolerant, so it always produces one event
per attached handler whatever `on_failed` behaviours are). -/
def import_loop {R : Type} (B : Nat → HandlerB) (hs : List Nat) :
    List (PullO R) → Nat → List (Ev R) × Except PyErr Unit
  | [], _ =>
    (hs.map Ev.on_import_finished,
     if finished_errors B hs = [] then .ok ()
     else .error (.importOpErrorNoCause .handler_raised_on_finished))
  | .raiseE e :: _, _ =>
    (hs.map Ev.on_import_failed,
     .error (.importOpError .record_generator_raised e))
  | .notRec :: _, _ =>
    (hs.map Ev.on_import_failed,
     .error (.importOpError .record_generator_raised
       (.valueError .not_import_record)))
  | .record r :: rest, i =>
    let (devs, fault) := deliver_record B i r hs
    match fault with
    | some e =>
      (devs ++ hs.map Ev.on_import_failed,
       .error (.importOpError .handler_raised_on_record e))
    | none =>
      let (evs, res) := import_loop B hs rest (i + 1)
      (devs ++ evs, res)

/-- `perform_import`: validate the import type, build the operation,
broadcast `import_started` (fault-tolerant; all receivers run, the first
raised exception fails the operation), then run the record loop, and on
success return the operation. -/
def perform_import {P R : Type} (record_type : P)
    (import_type : Option ImportType) (B : Nat → HandlerB)
    (receivers : List (List Nat × Option PyErr)) (source : List (PullO R)) :
    List (Ev R) × Except PyErr (ImportOperation P) :=
  match import_type with
  | none => ([], .error (.valueError .bad_import_type))
  | some it =>
    let hs := attached_handlers receivers
    match (receivers.filterMap Prod.snd).head? with
    | some e =>
      (hs.map Ev.on_import_failed,
       .error (.importOpError .started_receiver_raised e))
    | none =>
      let (evs, res) := import_loop B hs source 0
      (evs, res.map (fun _ => ⟨record_type, it, hs⟩))

/-- The `on_record_available` event block of one fault-free record delivery
round per source record, in source order. -/
def delivery_trace {R : Type} (hs : List Nat) : List R → List (Ev R)
  | [] => []
  | r :: rest => hs.map (fun h => Ev.on_record_available h r) ++ delivery_trace hs rest

/-- The fault cause `perform_import` attaches for a faulty source pull:
the generator's own exception, or the `ValueError` for a non-record item. -/
def fault_cause {R : Type} : PullO R → Option PyErr
  | .record _ => none
  | .notRec => some (.valueError .not_import_record)
  | .raiseE e => some e

/-!
## Claims
-/

/-- C3: the rendezvous state is exactly the four-state machine of the spec's
table: from `AWAITING_VAL` the three `register_*` calls store their payload
and move to `HAS_VAL`/`AT_ERR`/`AT_END`; `take_next` (`__next__`) in
`HAS_VAL` returns the stored value and moves back to `AWAITING_VAL`, in
`AT_ERR` raises the stored error and moves to `AT_END`, in `AT_END` signals
end-of-sequence (`StopIteration`) and stays; every `register_*` call in a
non-`AWAITING_VAL` state and `take_next` in `AWAITING_VAL` fail with a
protocol `RuntimeError` leaving the state unchanged; and `is_at_end` is true
only in `AT_END`. -/
theorem iteration_state_machine (V : Type) (v w : V) (e e' : PyErr) :
    (IterationState.AWAITING_VAL.register_next_val v = (.HAS_VAL v, none))
    ∧ ((IterationState.AWAITING_VAL : IterationState V).register_error e
        = (.AT_ERR e, none))
    ∧ ((IterationState.AWAITING_VAL : IterationState V).register_end
        = (.AT_END, none))
    ∧ ((IterationState.HAS_VAL w).next = (.AWAITING_VAL, .ok w))
    ∧ ((IterationState.AT_ERR e : IterationState V).next
        = (.AT_END, .error e))
    ∧ ((IterationState.AT_END : IterationState V).next
        = (.AT_END, .error .stopIteration))
    ∧ ((IterationState.AWAITING_VAL : IterationState V).next
        = (.AWAITING_VAL, .error (.runtimeError .next_before_val)))
    ∧ ((IterationState.HAS_VAL w).register_next_val v
        = (.HAS_VAL w, some (.runtimeError .unexpected_state)))
    ∧ ((IterationState.AT_ERR e' : IterationState V).register_next_val v
        = (.AT_ERR e', some (.runtimeError .unexpected_state)))
    ∧ ((IterationState.AT_END : IterationState V).register_next_val v
        = (.AT_END, some (.runtimeError .unexpected_state)))
    ∧ ((IterationState.HAS_VAL w).register_error e
        = (.HAS_VAL w, some (.runtimeError .unexpected_state)))
    ∧ ((IterationState.AT_ERR e' : IterationState V).register_error e
        = (.AT_ERR e', some (.runtimeError .unexpected_state)))
    ∧ ((IterationState.AT_END : IterationState V).register_error e
        = (.AT_END, some (.runtimeError .unexpected_state)))
    ∧ ((IterationState.HAS_VAL w).register_end
        = (.HAS_VAL w, some (.runtimeError .unexpected_state)))
    ∧ ((IterationState.AT_ERR e' : IterationState V).register_end
        = (.AT_ERR e', some (.runtimeError .unexpected_state)))
    ∧ ((IterationState.AT_END : IterationState V).register_end
        = (.AT_END, some (.runtimeError .unexpected_state)))
    ∧ (∀ s : IterationState V, s.is_at_end = true ↔ s = .AT_END) := by
  refine ⟨rfl, rfl, rfl, rfl, rfl, rfl, rfl, rfl, rfl, rfl, rfl, rfl, rfl,
    rfl, rfl, rfl, ?_⟩
  intro s
  cases s <;> simp [IterationState.is_at_end]

/-- C8: constructing an `ImportRecord` from a collection of identifiers
collapses duplicates to a set of the distinct elements, and `is_deleted` is
true exactly when the payload is absent.  (Immutability holds by
construction in this functional embedding.) -/
theorem import_record_ids_deleted {T U D : Type} [DecidableEq T]
    [DecidableEq U] (ids : List (ID T U)) (d : Option D) (x : D) :
    ((ImportRecord.make ids d).ids = ids.toFinset)
    ∧ (∀ a : ID T U, a ∈ (ImportRecord.make ids d).ids ↔ a ∈ ids)
    ∧ ((ImportRecord.make ids (none : Option D)).is_deleted = true)
    ∧ ((ImportRecord.make ids (some x)).is_deleted = false)
    ∧ ((ImportRecord.make ids d).is_deleted = true ↔ d = none) := by
  refine ⟨rfl, fun a => List.mem_toFinset, rfl, rfl, ?_⟩
  cases d <;> simp [ImportRecord.make, ImportRecord.is_deleted]

/-- C9: `attach_handler` is idempotent (an already-attached handler leaves
the list unchanged, a new one is appended at the end) and `detach_handler`
removes the (first) occurrence when present and is a no-op when absent. -/
theorem attach_detach_handler {H : Type} [DecidableEq H]
    (l l1 l2 : List H) (h : H) :
    (h ∈ l → attach_handler l h = l)
    ∧ (h ∉ l → attach_handler l h = l ++ [h])
    ∧ (h ∉ l1 → detach_handler (l1 ++ h :: l2) h = l1 ++ l2)
    ∧ (h ∉ l → detach_handler l h = l) := by
  refine ⟨fun hm => if_pos hm, fun hm => if_neg hm, fun hm => ?_,
    fun hm => List.erase_of_not_mem hm⟩
  unfold detach_handler
  rw [List.erase_append_right _ hm, List.erase_cons_head]

/-- Witness for C9 at concrete inputs. -/
theorem attach_detach_handler_witness :
    (attach_handler [1, 2] 2 = [1, 2])
    ∧ (attach_handler [1, 2] 3 = [1, 2, 3])
    ∧ (detach_handler [1, 2, 3] 2 = [1, 3])
    ∧ (detach_handler [1, 2] 5 = [1, 2]) := by
  refine ⟨(attach_detach_handler [1, 2] [] [] 2).1 (by decide),
    (attach_detach_handler [1, 2] [] [] 3).2.1 (by decide), ?_,
    (attach_detach_handler [1, 2] [] [] 5).2.2.2 (by decide)⟩
  exact (attach_detach_handler [] [1] [3] 2).2.2.1 (by decide)

/-- C5, evaluated on the draft at the failing input: the `eager_consumer` of
the repository's tests (a plain function running `for thing in feeder:
pass`, which catches nothing) makes the draft's constructor fail — but with
`AttributeError`, because `__init__` assigns `step_count`/`yield_count` only
after `bind_consumer` returns, so the eager first pull reads the unset
`yield_count`.  The claim (with the spec and the repository's own test
`test_creating_controller_with_eager_consumer_results_in_error`) expects the
"attempted to access a second value without yielding"
`InvertedIterationError` instead. -/
theorem eager_binder_draft_raises_attribute_error :
    mk_controller (V := Nat) (S := Unit) (fun _ => .retA)
      (.eagerB (fun r =>
        match r with
        | .err e => .error e
        | _ => .ok ())) =
      .error .attributeError := rfl

/-- C10: on an active, quiescent controller (rendezvous slot awaiting a
value, counters in sync, consumer suspended at a state that pulls and does
not catch what the feeder raises), `fail(err)` raises the injected `err`
itself to the caller — not a protocol error — and leaves the rendezvous
state at `AT_END` with `is_active` false. -/
theorem fail_propagates_uncaught_error {V S : Type} (fuel : Nat)
    (c : InvertedIterationController V S) (s : S) (k : FeederRes V → S)
    (err : PyErr)
    (hst : c.core.istate = .AWAITING_VAL)
    (halive : c.core.feeder_alive = true)
    (hsync : c.core.yield_count = c.core.step_count)
    (hcons : c.consumer = .live s)
    (hcode : c.consumer_code s = .pullA k)
    (hprop : ∀ e, c.consumer_code (k (.err e)) = .raiseA e)
    (hni : err ≠ .stopIteration)
    (hfuel : 2 ≤ fuel) :
    ((InvertedIterationController.fail fuel c err).2 = .raised err)
    ∧ ((InvertedIterationController.fail fuel c err).1.core.istate = .AT_END)
    ∧ ((InvertedIterationController.fail fuel c err).1.is_active = false) := by
  obtain ⟨⟨ist, sc, yc, fa⟩, code, cons⟩ := c
  dsimp only at hst halive hsync hcons hcode hprop
  subst hst halive hsync hcons
  obtain ⟨f, rfl⟩ : ∃ n, fuel = n + 2 := ⟨fuel - 2, by omega⟩
  simp [InvertedIterationController.fail, IterationState.register_error,
    ctrl_step, run_consumer, hcode, hprop, feeder_pull, validate_in_sync,
    IterationState.next, hni, InvertedIterationController.is_active,
    IterationState.is_at_end]

/-- The greedy test consumer for the C10 witness: it always pulls the feeder
and re-raises whatever the feeder raises (it catches nothing). -/
def greedy_code : FeederRes Nat → CAct Nat (FeederRes Nat) :=
  fun s =>
    match s with
    | .err e => .raiseA e
    | _ => .pullA (fun r => r)

/-- Witness for C10: a freshly constructed controller over `greedy_code`;
`fail(ValueError)` raises that error and ends the iteration. -/
theorem fail_propagates_uncaught_error_witness :
    ((InvertedIterationController.fail 2
        ⟨⟨.AWAITING_VAL, 0, 0, true⟩, greedy_code, .live .stop⟩
        (.user 3)).2 = .raised (.user 3))
    ∧ ((InvertedIterationController.fail 2
        ⟨⟨.AWAITING_VAL, 0, 0, true⟩, greedy_code, .live .stop⟩
        (.user 3)).1.core.istate = .AT_END)
    ∧ ((InvertedIterationController.fail 2
        ⟨⟨.AWAITING_VAL, 0, 0, true⟩, greedy_code, .live .stop⟩
        (.user 3)).1.is_active = false) :=
  fail_propagates_uncaught_error 2
    ⟨⟨.AWAITING_VAL, 0, 0, true⟩, greedy_code, .live .stop⟩
    .stop (fun r => r) (.user 3) rfl rfl rfl rfl rfl (fun _ => rfl)
    (by decide) (by decide)

/-- C4: once the bound consumer has raised its own uncaught exception while
being driven, the dead-aware controller is dead.  First part: a dead
controller reports `is_dead`, is not active, and every further
`transmit_value`/`fail`/`end` call fails with the "failed iterator" protocol
error with the controller untouched (so the consumer is not re-invoked).
Second part: driving a consumer whose resume raises its own exception — by
any of the three calls — propagates that exception and leaves the controller
dead. -/
theorem dead_controller_rejects {V S : Type} (fuel : Nat)
    (c : ControllerD V S) (v : V) (err : PyErr) :
    (c.dead = true →
      (ControllerD.transmit_value fuel c v
          = (c, .raised (.invertedIteration .failed_iterator)))
      ∧ (ControllerD.fail fuel c err
          = (c, .raised (.invertedIteration .failed_iterator)))
      ∧ (ControllerD.end_loop fuel c
          = (c, .raised (.invertedIteration .failed_iterator)))
      ∧ (c.is_dead = true) ∧ (c.is_active = false))
    ∧ (∀ (s : S) (e : PyErr),
      c.dead = false → c.ctrl.consumer = .live s →
      c.ctrl.consumer_code s = .raiseA e →
      c.ctrl.core.istate = .AWAITING_VAL → 1 ≤ fuel →
        ((ControllerD.transmit_value fuel c v).2 = .raised e)
        ∧ ((ControllerD.transmit_value fuel c v).1.dead = true)
        ∧ ((ControllerD.fail fuel c err).2 = .raised e)
        ∧ ((ControllerD.fail fuel c err).1.dead = true)
        ∧ ((ControllerD.end_loop fuel c).2 = .raised e)
        ∧ ((ControllerD.end_loop fuel c).1.dead = true)) := by
  obtain ⟨⟨⟨ist, sc, yc, fa⟩, code, cons⟩, dead⟩ := c
  constructor
  · intro hd
    dsimp only at hd
    subst hd
    refine ⟨rfl, rfl, rfl, rfl, rfl⟩
  · intro s e hd hcons hcode hist hfuel
    dsimp only at hd hcons hcode hist
    subst hd hcons hist
    obtain ⟨f, rfl⟩ : ∃ n, fuel = n + 1 := ⟨fuel - 1, by omega⟩
    simp [ControllerD.transmit_value, ControllerD.fail, ControllerD.end_loop,
      IterationState.register_next_val, IterationState.register_error,
      IterationState.register_end, ctrl_step_d, run_consumer, hcode]

/-- Witness for C4: a consumer that raises `ValueError('boom')` as soon as it
is driven (the `failing_consumer` of the tests) kills the controller, and the
resulting dead controller rejects all three driving calls. -/
theorem dead_controller_rejects_witness :
    (((ControllerD.transmit_value 1
        ⟨⟨⟨.AWAITING_VAL, 0, 0, true⟩, fun _ : Unit => .raiseA (.user 7),
          .live ()⟩, false⟩ (5 : Nat)).2 = .raised (.user 7))
      ∧ ((ControllerD.transmit_value 1
        ⟨⟨⟨.AWAITING_VAL, 0, 0, true⟩, fun _ : Unit => .raiseA (.user 7),
          .live ()⟩, false⟩ (5 : Nat)).1.dead = true))
    ∧ ((ControllerD.end_loop (V := Nat) 1
        ⟨⟨⟨.AWAITING_VAL, 1, 1, false⟩, fun _ : Unit => .retA,
          .exhausted⟩, true⟩
        = (⟨⟨⟨.AWAITING_VAL, 1, 1, false⟩, fun _ : Unit => .retA,
          .exhausted⟩, true⟩, .raised (.invertedIteration .failed_iterator)))
      ∧ (ControllerD.is_active (V := Nat)
        ⟨⟨⟨.AWAITING_VAL, 1, 1, false⟩, fun _ : Unit => .retA,
          .exhausted⟩, true⟩ = false)) := by
  constructor
  · have h := (dead_controller_rejects 1
      ⟨⟨⟨.AWAITING_VAL, 0, 0, true⟩, fun _ : Unit => .raiseA (.user 7),
        .live ()⟩, false⟩ (5 : Nat) (.user 9)).2 () (.user 7)
      rfl rfl rfl rfl (by decide)
    exact ⟨h.1, h.2.1⟩
  · have h := (dead_controller_rejects 1
      ⟨⟨⟨.AWAITING_VAL, 1, 1, false⟩, fun _ : Unit => .retA,
        .exhausted⟩, true⟩ (0 : Nat) (.user 9)).1 rfl
    exact ⟨h.2.2.1, h.2.2.2.2⟩

/-- C7: on its own operation, the generator-style adapter's
`on_import_failed` is a complete no-op when a previous callback already
raised (`error_raised` set): it returns normally with the adapter (and hence
its controller and consumer) untouched.  When the flag is clear it drives
`controller.fail` with the `ImportOperationError('handler got
on_import_failed()')`. -/
theorem generator_handler_on_import_failed {V S : Type} (fuel : Nat)
    (g : GeneratorImportOperationHandler V S) :
    (g.error_raised = true →
      GeneratorImportOperationHandler.on_import_failed fuel g g.operation
        = (g, .ok))
    ∧ (g.error_raised = false →
      GeneratorImportOperationHandler.on_import_failed fuel g g.operation
        = ({ g with controller :=
              (g.controller.fail fuel
                (.importOpErrorNoCause .handler_got_on_import_failed)).1 },
           (g.controller.fail fuel
             (.importOpErrorNoCause .handler_got_on_import_failed)).2)) := by
  constructor
  · intro hflag
    simp [GeneratorImportOperationHandler.on_import_failed, hflag]
  · intro hflag
    simp [GeneratorImportOperationHandler.on_import_failed, hflag]

/-- Witness for C7: both branches at a concrete adapter (a live controller
whose consumer would accept the failure notification, and the same adapter
with the `error_raised` flag set). -/
theorem generator_handler_on_import_failed_witness :
    (GeneratorImportOperationHandler.on_import_failed 2
      ⟨4, true, ⟨⟨⟨.AWAITING_VAL, 0, 0, true⟩, greedy_code, .live .stop⟩,
        false⟩⟩ 4
      = (⟨4, true, ⟨⟨⟨.AWAITING_VAL, 0, 0, true⟩, greedy_code, .live .stop⟩,
        false⟩⟩, .ok))
    ∧ (GeneratorImportOperationHandler.on_import_failed 2
      ⟨4, false, ⟨⟨⟨.AWAITING_VAL, 0, 0, true⟩, greedy_code, .live .stop⟩,
        false⟩⟩ 4
      = (⟨4, false,
          (ControllerD.fail 2
            ⟨⟨⟨.AWAITING_VAL, 0, 0, true⟩, greedy_code, .live .stop⟩, false⟩
            (.importOpErrorNoCause .handler_got_on_import_failed)).1⟩,
          (ControllerD.fail 2
            ⟨⟨⟨.AWAITING_VAL, 0, 0, true⟩, greedy_code, .live .stop⟩, false⟩
            (.importOpErrorNoCause .handler_got_on_import_failed)).2)) :=
  ⟨(generator_handler_on_import_failed 2
      ⟨4, true, ⟨⟨⟨.AWAITING_VAL, 0, 0, true⟩, greedy_code, .live .stop⟩,
        false⟩⟩).1 rfl,
   (generator_handler_on_import_failed 2
      ⟨4, false, ⟨⟨⟨.AWAITING_VAL, 0, 0, true⟩, greedy_code, .live .stop⟩,
        false⟩⟩).2 rfl⟩

/-- When no handler raises on delivery, a record delivery round invokes every
handler in attachment order and reports no fault. -/
lemma deliver_record_ok {R : Type} (B : Nat → HandlerB) (i : Nat) (r : R) :
    ∀ hs : List Nat, (∀ h ∈ hs, (B h).on_record i = none) →
      deliver_record B i r hs
        = (hs.map (fun h => Ev.on_record_available h r), none) := by
  intro hs
  induction hs with
  | nil => intro _; rfl
  | cons a t ih =>
    intro hh
    have ha := hh a (by simp)
    simp [deliver_record, ha, ih (fun h hm => hh h (by simp [hm]))]

/-- The record loop over a fault-free all-records source: full delivery
trace, one finished round, and the result decided by the finished-round
errors. -/
lemma import_loop_records {R : Type} (B : Nat → HandlerB) (hs : List Nat)
    (hrec : ∀ h ∈ hs, ∀ j, (B h).on_record j = none) :
    ∀ (recs : List R) (i : Nat),
      import_loop B hs (recs.map PullO.record) i =
        (delivery_trace hs recs ++ hs.map Ev.on_import_finished,
         if finished_errors B hs = [] then .ok ()
         else .error (.importOpErrorNoCause .handler_raised_on_finished)) := by
  intro recs
  induction recs with
  | nil => intro i; simp [import_loop, delivery_trace]
  | cons r rest ih =>
    intro i
    simp [import_loop, deliver_record_ok B i r hs (fun h hm => hrec h hm i),
      ih (i + 1), delivery_trace]

/-- C1: with a valid import kind, no raising `import_started` receiver, no
raising handler and a source of valid records that never raises,
`perform_import` returns the constructed operation (with the handlers the
receivers attached) and the event trace is exactly: for each source record
in order, one `on_record_available` per attached handler in attachment
order, followed by exactly one `on_import_finished` per handler — and no
`on_import_failed` at all. -/
theorem perform_import_success {P R : Type} (rt : P) (it : ImportType)
    (B : Nat → HandlerB) (receivers : List (List Nat × Option PyErr))
    (recs : List R)
    (hrcv : ∀ p ∈ receivers, p.2 = none)
    (hrec : ∀ h ∈ attached_handlers receivers, ∀ j, (B h).on_record j = none)
    (hfin : ∀ h ∈ attached_handlers receivers, (B h).on_finished = none) :
    perform_import rt (some it) B receivers (recs.map PullO.record) =
      (delivery_trace (attached_handlers receivers) recs
         ++ (attached_handlers receivers).map Ev.on_import_finished,
       .ok ⟨rt, it, attached_handlers receivers⟩) := by
  have hflt : receivers.filterMap Prod.snd = [] :=
    List.filterMap_eq_nil_iff.mpr hrcv
  have hfe : finished_errors B (attached_handlers receivers) = [] :=
    List.filterMap_eq_nil_iff.mpr hfin
  simp [perform_import, hflt, import_loop_records B _ hrec recs 0, hfe,
    Except.map]

/-- Witness for C1: two handlers attached by one receiver, two records. -/
theorem perform_import_success_witness :
    perform_import (3 : Nat) (some .FULL_SYNC)
      (fun _ => ⟨fun _ => none, none, none⟩) [([0, 1], none)]
      (([10, 20] : List Nat).map PullO.record) =
      ([Ev.on_record_available 0 10, Ev.on_record_available 1 10,
        Ev.on_record_available 0 20, Ev.on_record_available 1 20,
        Ev.on_import_finished 0, Ev.on_import_finished 1],
       .ok ⟨3, .FULL_SYNC, [0, 1]⟩) := by
  have h := perform_import_success (3 : Nat) .FULL_SYNC
    (fun _ => ⟨fun _ => none, none, none⟩) [([0, 1], none)]
    ([10, 20] : List Nat) (by decide) (fun _ _ _ => rfl) (fun _ _ => rfl)
  simpa using h

/-- The record loop over a source whose first fault (a raising pull or a
non-record item) comes after `recs`: deliveries for the prefix, then one
fault-tolerant `on_import_failed` round and the wrapping
`ImportOperationError`. -/
lemma import_loop_fault {R : Type} (B : Nat → HandlerB) (hs : List Nat)
    (hrec : ∀ h ∈ hs, ∀ j, (B h).on_record j = none)
    (fault : PullO R) (rest : List (PullO R)) (ce : PyErr)
    (hfc : fault_cause fault = some ce) :
    ∀ (recs : List R) (i : Nat),
      import_loop B hs (recs.map PullO.record ++ fault :: rest) i =
        (delivery_trace hs recs ++ hs.map Ev.on_import_failed,
         .error (.importOpError .record_generator_raised ce)) := by
  intro recs
  induction recs with
  | nil =>
    intro i
    cases fault with
    | record r => simp [fault_cause] at hfc
    | notRec =>
      simp only [fault_cause, Option.some.injEq] at hfc
      simp [import_loop, delivery_trace, hfc]
    | raiseE e =>
      simp only [fault_cause, Option.some.injEq] at hfc
      simp [import_loop, delivery_trace, hfc]
  | cons r rest' ih =>
    intro i
    simp [import_loop, deliver_record_ok B i r hs (fun h hm => hrec h hm i),
      ih (i + 1), delivery_trace]

/-- C6: if the source raises at some pull (or yields a non-record item)
after `recs` good records, and no handler raises on record delivery, then
`perform_import` delivers `on_record_available` exactly for the records
before the fault, sends exactly one `on_import_failed` round to every
attached handler (whatever their `on_import_failed` behaviours are — the
round is fault tolerant), never sends `on_import_finished`, and raises a
single `ImportOperationError` whose cause is the source's exception (or the
`ValueError` for the invalid item). -/
theorem perform_import_source_fault {P R : Type} (rt : P) (it : ImportType)
    (B : Nat → HandlerB) (receivers : List (List Nat × Option PyErr))
    (recs : List R) (fault : PullO R) (rest : List (PullO R)) (ce : PyErr)
    (hrcv : ∀ p ∈ receivers, p.2 = none)
    (hrec : ∀ h ∈ attached_handlers receivers, ∀ j, (B h).on_record j = none)
    (hfc : fault_cause fault = some ce) :
    perform_import rt (some it) B receivers
        (recs.map PullO.record ++ fault :: rest) =
      (delivery_trace (attached_handlers receivers) recs
         ++ (attached_handlers receivers).map Ev.on_import_failed,
       .error (.importOpError .record_generator_raised ce)) := by
  have hflt : receivers.filterMap Prod.snd = [] :=
    List.filterMap_eq_nil_iff.mpr hrcv
  simp [perform_import, hflt,
    import_loop_fault B _ hrec fault rest ce hfc recs 0, Except.map]

/-- Witness for C6: one attached handler (which itself raises from its
`on_import_failed`, exercising fault tolerance), one good record, then a
raising pull. -/
theorem perform_import_source_fault_witness :
    perform_import (3 : Nat) (some .PARTIAL_UPDATE)
      (fun _ => ⟨fun _ => none, some (.user 9), none⟩) [([0], none)]
      (([10] : List Nat).map PullO.record ++ [PullO.raiseE (.user 7)]) =
      ([Ev.on_record_available 0 10, Ev.on_import_failed 0],
       .error (.importOpError .record_generator_raised (.user 7))) := by
  have h := perform_import_source_fault (3 : Nat) .PARTIAL_UPDATE
    (fun _ => ⟨fun _ => none, some (.user 9), none⟩) [([0], none)]
    ([10] : List Nat) (PullO.raiseE (.user 7)) [] (.user 7)
    (by decide) (fun _ _ _ => rfl) rfl
  simpa using h

/-- `attach_handler` keeps the handler list duplicate-free. -/
lemma attach_handler_nodup {H : Type} [DecidableEq H] (l : List H) (h : H)
    (hl : l.Nodup) : (attach_handler l h).Nodup := by
  unfold attach_handler
  split
  · exact hl
  · next hmem => simp [List.nodup_append, hl, hmem]

/-- Folding `attach_handler` over any list keeps the accumulator
duplicate-free. -/
lemma foldl_attach_nodup {H : Type} [DecidableEq H] :
    ∀ (xs : List H) (acc : List H), acc.Nodup →
      (xs.foldl attach_handler acc).Nodup := by
  intro xs
  induction xs with
  | nil => intro acc h; exact h
  | cons a t ih => intro acc h; exact ih _ (attach_handler_nodup acc a h)

/-- The handler list built by the `import_started` receivers has no
duplicates (idempotent attach). -/
lemma attached_handlers_nodup (receivers : List (List Nat × Option PyErr)) :
    (attached_handlers receivers).Nodup := by
  unfold attached_handlers
  have aux : ∀ (rs : List (List Nat × Option PyErr)) (acc : List Nat),
      acc.Nodup →
      (rs.foldl (fun acc r => r.1.foldl attach_handler acc) acc).Nodup := by
    intro rs
    induction rs with
    | nil => intro acc h; exact h
    | cons p t ih => intro acc h; exact ih _ (foldl_attach_nodup p.1 acc h)
  exact aux receivers [] List.nodup_nil

/-- Every event a delivery round produces is an `on_record_available`. -/
lemma deliver_record_events {R : Type} (B : Nat → HandlerB) (i : Nat)
    (r : R) : ∀ (hs : List Nat), ∀ ev ∈ (deliver_record B i r hs).1,
      ∃ h, ev = Ev.on_record_available h r := by
  intro hs
  induction hs with
  | nil => intro ev hev; simp [deliver_record] at hev
  | cons a t ih =>
    intro ev hev
    revert hev
    show ev ∈ (deliver_record B i r (a :: t)).1 → _
    unfold deliver_record
    cases hB : (B a).on_record i with
    | some e =>
      intro hev
      simp at hev
      exact ⟨a, hev⟩
    | none =>
      intro hev
      simp only [List.mem_cons] at hev
      rcases hev with h1 | h2
      · exact ⟨a, h1⟩
      · exact ih ev h2

/-- Unfolding equation for the record-delivering arm of the loop. -/
lemma import_loop_record_cons {R : Type} (B : Nat → HandlerB)
    (hs : List Nat) (r : R) (rest : List (PullO R)) (i : Nat) :
    import_loop B hs (.record r :: rest) i =
      match (deliver_record B i r hs).2 with
      | some e =>
        ((deliver_record B i r hs).1 ++ hs.map Ev.on_import_failed,
         .error (.importOpError .handler_raised_on_record e))
      | none =>
        ((deliver_record B i r hs).1 ++ (import_loop B hs rest (i + 1)).1,
         (import_loop B hs rest (i + 1)).2) := rfl

/-- Trace/result shape of the record loop: some `on_record_available`-only
prefix followed by either one `on_import_failed` round with an
`ImportOperationError`-with-cause, or one `on_import_finished` round with
success or the cause-free finished-round `ImportOperationError`. -/
lemma import_loop_cases {R : Type} (B : Nat → HandlerB) (hs : List Nat) :
    ∀ (source : List (PullO R)) (i : Nat),
      ∃ devs : List (Ev R),
        (∀ ev ∈ devs, ∃ h r, ev = Ev.on_record_available h r) ∧
        ((∃ m e, import_loop B hs source i
            = (devs ++ hs.map Ev.on_import_failed,
               .error (.importOpError m e)))
         ∨ (∃ res : Except PyErr Unit,
              import_loop B hs source i
                = (devs ++ hs.map Ev.on_import_finished, res)
              ∧ (res = .ok ()
                 ∨ res = .error
                     (.importOpErrorNoCause .handler_raised_on_finished)))) := by
  intro source
  induction source with
  | nil =>
    intro i
    refine ⟨[], by simp, .inr ⟨_, rfl, ?_⟩⟩
    by_cases hfe : finished_errors B hs = [] <;> simp [import_loop, hfe]
  | cons p rest ih =>
    intro i
    cases p with
    | raiseE e => exact ⟨[], by simp, .inl ⟨.record_generator_raised, e, rfl⟩⟩
    | notRec =>
      exact ⟨[], by simp, .inl ⟨.record_generator_raised,
        .valueError .not_import_record, rfl⟩⟩
    | record r =>
      cases hflt : (deliver_record B i r hs).2 with
      | some e =>
        refine ⟨(deliver_record B i r hs).1,
          fun ev hev => ?_, .inl ⟨.handler_raised_on_record, e, ?_⟩⟩
        · obtain ⟨h, hh⟩ := deliver_record_events B i r hs ev hev
          exact ⟨h, r, hh⟩
        · rw [import_loop_record_cons, hflt]
      | none =>
        obtain ⟨devs', hdevs', hcase⟩ := ih (i + 1)
        refine ⟨(deliver_record B i r hs).1 ++ devs', ?_, ?_⟩
        · intro ev hev
          rcases List.mem_append.1 hev with h1 | h2
          · obtain ⟨h, hh⟩ := deliver_record_events B i r hs ev h1
            exact ⟨h, r, hh⟩
          · exact hdevs' ev h2
        rcases hcase with ⟨m, e, heq⟩ | ⟨res, heq, hres⟩
        · refine .inl ⟨m, e, ?_⟩
          rw [import_loop_record_cons, hflt, heq]
          simp
        · refine .inr ⟨res, ?_, hres⟩
          rw [import_loop_record_cons, hflt, heq]
          simp

/-- Counting a handler's `on_import_failed` events in a failed round. -/
lemma count_failed_map {R : Type} [DecidableEq R] (hs : List Nat) (h : Nat) :
    ((hs.map (Ev.on_import_failed (R := R))).count (Ev.on_import_failed h))
      = hs.count h := by
  induction hs with
  | nil => rfl
  | cons a t ih => simp [List.count_cons, ih]

/-- A finished round contains no `on_import_failed` events and a failed
round contains no `on_import_finished` events. -/
lemma rounds_disjoint {R : Type} (hs : List Nat) (h : Nat) :
    (Ev.on_import_failed (R := R) h ∉ hs.map Ev.on_import_finished)
    ∧ (Ev.on_import_finished (R := R) h ∉ hs.map Ev.on_import_failed) := by
  constructor <;> simp

/-- A block of record deliveries contains no notification-round events. -/
lemma devs_no_rounds {R : Type} (devs : List (Ev R))
    (hdevs : ∀ ev ∈ devs, ∃ h r, ev = Ev.on_record_available h r) :
    (∀ h, Ev.on_import_failed h ∉ devs)
    ∧ (∀ h, Ev.on_import_finished h ∉ devs) := by
  constructor <;>
    · intro h hm
      obtain ⟨h', r', heq⟩ := hdevs _ hm
      simp at heq

/-- C2: in every run of `perform_import`, no handler ever receives both
`on_import_finished` and `on_import_failed`; when the run fails because one
or more handlers raised from the `on_import_finished` round (the cause-free
`ImportOperationError`), no `on_import_failed` round is sent at all; on every
other operation-failure path (an `ImportOperationError` wrapping a cause)
every attached handler receives exactly one `on_import_failed` and no
`on_import_finished`; and a fault-free run whose finished round collects
errors does fail with that cause-free `ImportOperationError`. -/
theorem finished_failed_mutually_exclusive {P R : Type} [DecidableEq R] (rt : P)
    (import_type : Option ImportType) (B : Nat → HandlerB)
    (receivers : List (List Nat × Option PyErr)) (source : List (PullO R))
    (tr : List (Ev R)) (res : Except PyErr (ImportOperation P))
    (hrun : perform_import rt import_type B receivers source = (tr, res)) :
    (∀ h : Nat, ¬(Ev.on_import_failed h ∈ tr ∧ Ev.on_import_finished h ∈ tr))
    ∧ (∀ m : IOEMsg, res = .error (.importOpErrorNoCause m) →
        ∀ h : Nat, Ev.on_import_failed h ∉ tr)
    ∧ (∀ (m : IOEMsg) (e : PyErr), res = .error (.importOpError m e) →
        (∀ h ∈ attached_handlers receivers,
          tr.count (Ev.on_import_failed h) = 1)
        ∧ (∀ h : Nat, Ev.on_import_finished h ∉ tr))
    ∧ (∀ (it : ImportType) (recs : List R), import_type = some it →
        source = recs.map PullO.record →
        (∀ h ∈ attached_handlers receivers, ∀ j, (B h).on_record j = none) →
        (∀ p ∈ receivers, p.2 = none) →
        finished_errors B (attached_handlers receivers) ≠ [] →
        res = .error (.importOpErrorNoCause .handler_raised_on_finished)) := by
  cases import_type with
  | none =>
    simp only [perform_import, Prod.mk.injEq] at hrun
    obtain ⟨h1, h2⟩ := hrun
    subst h1
    subst h2
    refine ⟨by simp, by simp, ?_, ?_⟩
    · intro m e hres
      simp at hres
    · intro it recs hit
      simp at hit
  | some it =>
    simp only [perform_import] at hrun
    cases hflt : (receivers.filterMap Prod.snd).head? with
    | some e =>
      rw [hflt] at hrun
      simp only [Prod.mk.injEq] at hrun
      obtain ⟨h1, h2⟩ := hrun
      subst h1
      subst h2
      refine ⟨?_, ?_, ?_, ?_⟩
      · intro h hboth
        exact (rounds_disjoint _ h).2 hboth.2
      · intro m hres
        simp at hres
      · intro m e' hres
        refine ⟨fun h hm => ?_, fun h => (rounds_disjoint _ h).2⟩
        rw [count_failed_map]
        exact List.count_eq_one_of_mem (attached_handlers_nodup receivers) hm
      · intro it' recs hit hsrc hrec hrcv hfe
        rw [List.filterMap_eq_nil_iff.mpr hrcv] at hflt
        simp at hflt
    | none =>
      rw [hflt] at hrun
      obtain ⟨devs, hdevs, hcase⟩ :=
        import_loop_cases B (attached_handlers receivers) source 0
      rcases hcase with ⟨m, e, heq⟩ | ⟨lres, heq, hres2⟩
      · rw [heq] at hrun
        simp only [Except.map, Prod.mk.injEq] at hrun
        obtain ⟨h1, h2⟩ := hrun
        subst h1
        subst h2
        refine ⟨?_, ?_, ?_, ?_⟩
        · intro h hboth
          rcases List.mem_append.1 hboth.2 with h1 | h2
          · exact (devs_no_rounds devs hdevs).2 h h1
          · exact (rounds_disjoint _ h).2 h2
        · intro m' hres
          simp at hres
        · intro m' e' hres
          refine ⟨fun h hm => ?_, fun h hmem => ?_⟩
          · rw [List.count_append, count_failed_map,
              List.count_eq_zero.mpr ((devs_no_rounds devs hdevs).1 h),
              List.count_eq_one_of_mem (attached_handlers_nodup receivers) hm]
          · rcases List.mem_append.1 hmem with h1 | h2
            · exact (devs_no_rounds devs hdevs).2 h h1
            · exact (rounds_disjoint _ h).2 h2
        · intro it' recs hit hsrc hrec hrcv hfe
          subst hsrc
          have hloop := import_loop_records B (attached_handlers receivers)
            hrec recs 0
          rw [if_neg hfe] at hloop
          rw [heq] at hloop
          have := congrArg Prod.snd hloop
          simp at this
      · rw [heq] at hrun
        rcases hres2 with rfl | rfl
        · simp only [Except.map, Prod.mk.injEq] at hrun
          obtain ⟨h1, h2⟩ := hrun
          subst h1
          subst h2
          refine ⟨?_, ?_, ?_, ?_⟩
          · intro h hboth
            rcases List.mem_append.1 hboth.1 with h1 | h2
            · exact (devs_no_rounds devs hdevs).1 h h1
            · exact (rounds_disjoint _ h).1 h2
          · intro m' hres
            simp at hres
          · intro m' e' hres
            simp at hres
          · intro it' recs hit hsrc hrec hrcv hfe
            subst hsrc
            have hloop := import_loop_records B (attached_handlers receivers)
              hrec recs 0
            rw [if_neg hfe] at hloop
            rw [heq] at hloop
            have := congrArg Prod.snd hloop
            simp at this
        · simp only [Except.map, Prod.mk.injEq] at hrun
          obtain ⟨h1, h2⟩ := hrun
          subst h1
          subst h2
          refine ⟨?_, ?_, ?_, ?_⟩
          · intro h hboth
            rcases List.mem_append.1 hboth.1 with h1 | h2
            · exact (devs_no_rounds devs hdevs).1 h h1
            · exact (rounds_disjoint _ h).1 h2
          · intro m' hres h hmem
            rcases List.mem_append.1 hmem with h1 | h2
            · exact (devs_no_rounds devs hdevs).1 h h1
            · exact (rounds_disjoint _ h).1 h2
          · intro m' e' hres
            simp at hres
          · intro it' recs hit hsrc hrec hrcv hfe
            rfl

/-- Witness for C2 on a concrete failing run (source raises on the first
pull): the one attached handler gets exactly one `on_import_failed` and no
`on_import_finished`. -/
theorem finished_failed_mutually_exclusive_witness :
    ((([Ev.on_import_failed 0] : List (Ev Nat)).count (Ev.on_import_failed 0))
        = 1)
    ∧ (Ev.on_import_finished 0 ∉ ([Ev.on_import_failed 0] : List (Ev Nat))) := by
  have h := (finished_failed_mutually_exclusive (0 : Nat) (some .FULL_SYNC)
    (fun _ => ⟨fun _ => none, none, none⟩) [([0], none)]
    ([PullO.raiseE (.user 7)] : List (PullO Nat))
    [Ev.on_import_failed 0]
    (.error (.importOpError .record_generator_raised (.user 7))) rfl).2.2.1
    .record_generator_raised (.user 7) rfl
  exact ⟨h.1 0 (by decide), h.2 0⟩
